import Mathlib

/-!
Verification of the ai-study-circle cloud cost calculators.

The repository holds two Python scripts computing monthly cloud-hosting
cost estimates for usage scenarios, comparing an AWS-style and an
Azure-style provider:

* `src/scripts/cloud-cost-calculator.py` — class `CloudCostCalculator`,
  embedded below in namespace `CloudCalc`;
* `src/scripts/accurate-cost-calculator.py` — module-level functions,
  embedded below in namespace `Accurate`.

All Python numbers are modelled as rationals (`ℚ`): every literal in the
source is an exact decimal and each computation is a finite composition
of `+`, `-`, `*`, `/` and `max`, so the rational model tracks the source
arithmetic exactly.  The one partial operation — the division by the
grand total in the logging-percentage line, which raises
`ZeroDivisionError` in Python when the total is zero — is modelled by
returning `Option`: `none` exactly when the total is zero.
-/

namespace CloudCalc

/-- Scenario record for `cloud-cost-calculator.py`.  Mandatory keys are the
ones every scenario dict in `generate_scenarios` supplies and the cost
functions read with `scenario[...]`; the optional keys are the ones read
with `scenario.get(key, default)` and are modelled as `Option ℚ`. -/
structure Scenario where
  requests_per_month : ℚ
  avg_duration_seconds : ℚ
  memory_gb : ℚ
  storage_gb : ℚ
  cdn_transfer_gb : ℚ
  log_volume_gb : ℚ
  metrics_count : ℚ
  alarms_count : ℚ
  database_cost : ℚ
  opensearch_cost : ℚ
  apim_tier_cost : ℚ
  cosmos_ru_per_second : ℚ
  search_tier_cost : ℚ
  cognito_cost : Option ℚ := none
  notification_cost : Option ℚ := none
  waf_cost : Option ℚ := none
  data_transfer_cost : Option ℚ := none
  ad_b2c_cost : Option ℚ := none
  logic_apps_cost : Option ℚ := none
  app_gateway_cost : Option ℚ := none
  key_vault_cost : Option ℚ := none
  deriving Repr, DecidableEq

/-- Python `scenario.get('cognito_cost', 0)`. -/
def Scenario.cognito_costD (s : Scenario) : ℚ := s.cognito_cost.getD 0

/-- Python `scenario.get('notification_cost', 2)`. -/
def Scenario.notification_costD (s : Scenario) : ℚ := s.notification_cost.getD 2

/-- Python `scenario.get('waf_cost', 6)`. -/
def Scenario.waf_costD (s : Scenario) : ℚ := s.waf_cost.getD 6

/-- Python `scenario.get('data_transfer_cost', 18)` (AWS additional). -/
def Scenario.aws_data_transfer_costD (s : Scenario) : ℚ := s.data_transfer_cost.getD 18

/-- Python `scenario.get('ad_b2c_cost', 0)`. -/
def Scenario.ad_b2c_costD (s : Scenario) : ℚ := s.ad_b2c_cost.getD 0

/-- Python `scenario.get('logic_apps_cost', 1)`. -/
def Scenario.logic_apps_costD (s : Scenario) : ℚ := s.logic_apps_cost.getD 1

/-- Python `scenario.get('app_gateway_cost', 18)`. -/
def Scenario.app_gateway_costD (s : Scenario) : ℚ := s.app_gateway_cost.getD 18

/-- Python `scenario.get('key_vault_cost', 1)`. -/
def Scenario.key_vault_costD (s : Scenario) : ℚ := s.key_vault_cost.getD 1

/-- Python `scenario.get('data_transfer_cost', 16)` (Azure additional). -/
def Scenario.azure_data_transfer_costD (s : Scenario) : ℚ := s.data_transfer_cost.getD 16

/-- All numeric fields of the scenario (resolved through their defaults)
are non-negative. -/
def Scenario.Nonneg (s : Scenario) : Prop :=
  0 ≤ s.requests_per_month ∧ 0 ≤ s.avg_duration_seconds ∧ 0 ≤ s.memory_gb ∧
  0 ≤ s.storage_gb ∧ 0 ≤ s.cdn_transfer_gb ∧ 0 ≤ s.log_volume_gb ∧
  0 ≤ s.metrics_count ∧ 0 ≤ s.alarms_count ∧ 0 ≤ s.database_cost ∧
  0 ≤ s.opensearch_cost ∧ 0 ≤ s.apim_tier_cost ∧ 0 ≤ s.cosmos_ru_per_second ∧
  0 ≤ s.search_tier_cost ∧ 0 ≤ s.cognito_costD ∧ 0 ≤ s.notification_costD ∧
  0 ≤ s.waf_costD ∧ 0 ≤ s.aws_data_transfer_costD ∧ 0 ≤ s.ad_b2c_costD ∧
  0 ≤ s.logic_apps_costD ∧ 0 ≤ s.app_gateway_costD ∧ 0 ≤ s.key_vault_costD ∧
  0 ≤ s.azure_data_transfer_costD

instance (s : Scenario) : Decidable s.Nonneg := by
  unfold Scenario.Nonneg; infer_instance

/-! ### AWS pricing table (`self.aws_pricing`) -/

def aws_pricing_lambda_requests : ℚ := 0.0000002
def aws_pricing_lambda_gb_seconds : ℚ := 0.0000166667
def aws_pricing_api_gateway_requests : ℚ := 0.0000035
def aws_pricing_s3_storage : ℚ := 0.023
def aws_pricing_cloudfront_transfer : ℚ := 0.085
def aws_pricing_cloudwatch_ingestion : ℚ := 0.50
def aws_pricing_cloudwatch_storage : ℚ := 0.03
def aws_pricing_cloudwatch_metrics : ℚ := 0.30
def aws_pricing_cloudwatch_alarms : ℚ := 0.10

/-! ### Azure pricing table (`self.azure_pricing`) -/

def azure_pricing_functions_requests : ℚ := 0.0000002
def azure_pricing_functions_gb_seconds : ℚ := 0.000016
def azure_pricing_static_web_apps_standard : ℚ := 9
def azure_pricing_static_web_apps_storage : ℚ := 0.18
def azure_pricing_static_web_apps_bandwidth : ℚ := 0.15
def azure_pricing_cosmos_db_ru_per_second : ℚ := 0.008
def azure_pricing_monitor_ingestion : ℚ := 0.27
def azure_pricing_monitor_retention_basic : ℚ := 0.12

/-! ### `calculate_aws_costs` components -/

/-- `gb_seconds = lambda_requests * lambda_duration * lambda_memory_gb`. -/
def aws_gb_seconds (s : Scenario) : ℚ :=
  s.requests_per_month * s.avg_duration_seconds * s.memory_gb

/-- `costs['lambda']['requests']`. -/
def aws_lambda_requests_cost (s : Scenario) : ℚ :=
  max 0 ((s.requests_per_month - 1000000) * aws_pricing_lambda_requests)

/-- `costs['lambda']['execution']`. -/
def aws_lambda_execution_cost (s : Scenario) : ℚ :=
  max 0 ((aws_gb_seconds s - 400000) * aws_pricing_lambda_gb_seconds)

/-- `costs['lambda']['total']`. -/
def aws_lambda_total (s : Scenario) : ℚ :=
  aws_lambda_requests_cost s + aws_lambda_execution_cost s

/-- `costs['api_gateway']`. -/
def aws_api_gateway_cost (s : Scenario) : ℚ :=
  s.requests_per_month * aws_pricing_api_gateway_requests

/-- `costs['s3_cloudfront']['storage']`. -/
def aws_s3_storage_cost (s : Scenario) : ℚ :=
  s.storage_gb * aws_pricing_s3_storage

/-- `costs['s3_cloudfront']['transfer']`. -/
def aws_cloudfront_transfer_cost (s : Scenario) : ℚ :=
  s.cdn_transfer_gb * aws_pricing_cloudfront_transfer

/-- `costs['s3_cloudfront']['total']`. -/
def aws_s3_cloudfront_total (s : Scenario) : ℚ :=
  aws_s3_storage_cost s + aws_cloudfront_transfer_cost s

/-- `costs['database']` (read directly from the scenario dict). -/
def aws_database_cost (s : Scenario) : ℚ := s.database_cost

/-- `costs['cloudwatch']['total']`, the sum of ingestion, storage,
metrics and alarms components. -/
def aws_cloudwatch_total (s : Scenario) : ℚ :=
  s.log_volume_gb * aws_pricing_cloudwatch_ingestion +
  s.log_volume_gb * aws_pricing_cloudwatch_storage +
  s.metrics_count * aws_pricing_cloudwatch_metrics +
  s.alarms_count * aws_pricing_cloudwatch_alarms

/-- `costs['opensearch']` (read directly from the scenario dict). -/
def aws_opensearch_cost (s : Scenario) : ℚ := s.opensearch_cost

/-- `sum(costs['additional'].values())` for AWS. -/
def aws_additional_sum (s : Scenario) : ℚ :=
  s.cognito_costD + s.notification_costD + s.waf_costD + s.aws_data_transfer_costD

/-- `total_cost` at the end of `calculate_aws_costs`. -/
def aws_total_cost (s : Scenario) : ℚ :=
  aws_lambda_total s + aws_api_gateway_cost s +
  aws_s3_cloudfront_total s + aws_database_cost s +
  aws_cloudwatch_total s + aws_opensearch_cost s +
  aws_additional_sum s

/-- Result record returned by `calculate_aws_costs` (the parts of the
returned dict that are not plain copies of the breakdown entries). -/
structure AwsResult where
  total : ℚ
  logging_percentage : ℚ
  deriving Repr, DecidableEq

/-- The return of `calculate_aws_costs`: `none` models the
`ZeroDivisionError` Python raises in the `logging_percentage` line when
`total_cost` is zero. -/
def calculate_aws_costs (s : Scenario) : Option AwsResult :=
  if aws_total_cost s = 0 then none
  else some ⟨aws_total_cost s,
    (aws_cloudwatch_total s + aws_opensearch_cost s) / aws_total_cost s * 100⟩

/-! ### `calculate_azure_costs` components -/

/-- `gb_seconds` in `calculate_azure_costs`. -/
def azure_gb_seconds (s : Scenario) : ℚ :=
  s.requests_per_month * s.avg_duration_seconds * s.memory_gb

/-- `costs['functions']['requests']`. -/
def azure_functions_requests_cost (s : Scenario) : ℚ :=
  max 0 ((s.requests_per_month - 1000000) * azure_pricing_functions_requests)

/-- `costs['functions']['execution']`. -/
def azure_functions_execution_cost (s : Scenario) : ℚ :=
  max 0 ((azure_gb_seconds s - 400000) * azure_pricing_functions_gb_seconds)

/-- `costs['functions']['total']`. -/
def azure_functions_total (s : Scenario) : ℚ :=
  azure_functions_requests_cost s + azure_functions_execution_cost s

/-- `costs['apim']` (read directly from the scenario dict). -/
def azure_apim_cost (s : Scenario) : ℚ := s.apim_tier_cost

/-- `costs['static_web_apps']['total']`: fixed standard-tier base fee
plus storage plus bandwidth. -/
def azure_static_web_apps_total (s : Scenario) : ℚ :=
  azure_pricing_static_web_apps_standard +
  s.storage_gb * azure_pricing_static_web_apps_storage +
  s.cdn_transfer_gb * azure_pricing_static_web_apps_bandwidth

/-- `costs['cosmos_db'] = ru_per_second * price * hours_per_month` with
`hours_per_month = 730`. -/
def azure_cosmos_db_cost (s : Scenario) : ℚ :=
  s.cosmos_ru_per_second * azure_pricing_cosmos_db_ru_per_second * 730

/-- `costs['monitor']['total']`: ingestion plus basic retention. -/
def azure_monitor_total (s : Scenario) : ℚ :=
  s.log_volume_gb * azure_pricing_monitor_ingestion +
  s.log_volume_gb * azure_pricing_monitor_retention_basic

/-- `costs['search']` (read directly from the scenario dict). -/
def azure_search_cost (s : Scenario) : ℚ := s.search_tier_cost

/-- `sum(costs['additional'].values())` for Azure. -/
def azure_additional_sum (s : Scenario) : ℚ :=
  s.ad_b2c_costD + s.logic_apps_costD + s.app_gateway_costD +
  s.key_vault_costD + s.azure_data_transfer_costD

/-- `total_cost` at the end of `calculate_azure_costs`. -/
def azure_total_cost (s : Scenario) : ℚ :=
  azure_functions_total s + azure_apim_cost s +
  azure_static_web_apps_total s + azure_cosmos_db_cost s +
  azure_monitor_total s + azure_search_cost s +
  azure_additional_sum s

/-- Result record returned by `calculate_azure_costs`. -/
structure AzureResult where
  total : ℚ
  logging_percentage : ℚ
  deriving Repr, DecidableEq

/-- The return of `calculate_azure_costs`: `none` models the Python
`ZeroDivisionError` when `total_cost` is zero. -/
def calculate_azure_costs (s : Scenario) : Option AzureResult :=
  if azure_total_cost s = 0 then none
  else some ⟨azure_total_cost s,
    (azure_monitor_total s + azure_search_cost s) / azure_total_cost s * 100⟩

/-! ### `generate_scenarios` -/

/-- The `low_usage` scenario dict. -/
def scenario_low : Scenario where
  requests_per_month := 50000
  avg_duration_seconds := 2
  memory_gb := 0.5
  storage_gb := 50
  cdn_transfer_gb := 100
  log_volume_gb := 10
  metrics_count := 50
  alarms_count := 10
  database_cost := 65
  opensearch_cost := 28
  apim_tier_cost := 48
  cosmos_ru_per_second := 1000
  search_tier_cost := 25

/-- The `medium_usage` scenario dict. -/
def scenario_medium : Scenario where
  requests_per_month := 1500000
  avg_duration_seconds := 2
  memory_gb := 0.5
  storage_gb := 200
  cdn_transfer_gb := 500
  log_volume_gb := 100
  metrics_count := 200
  alarms_count := 25
  database_cost := 156
  opensearch_cost := 145
  apim_tier_cost := 268
  cosmos_ru_per_second := 5000
  search_tier_cost := 89
  cognito_cost := some 27.5
  notification_cost := some 12
  waf_cost := some 15
  data_transfer_cost := some 89
  ad_b2c_cost := some 15
  logic_apps_cost := some 28
  app_gateway_cost := some 45
  key_vault_cost := some 3

/-- The `high_usage` scenario dict. -/
def scenario_high : Scenario where
  requests_per_month := 15000000
  avg_duration_seconds := 3
  memory_gb := 1.0
  storage_gb := 1000
  cdn_transfer_gb := 5000
  log_volume_gb := 1000
  metrics_count := 1000
  alarms_count := 50
  database_cost := 625
  opensearch_cost := 567
  apim_tier_cost := 2845
  cosmos_ru_per_second := 25000
  search_tier_cost := 445
  cognito_cost := some 275
  notification_cost := some 89
  waf_cost := some 3000
  data_transfer_cost := some 856
  ad_b2c_cost := some 150
  logic_apps_cost := some 234
  app_gateway_cost := some 334
  key_vault_cost := some 12

/-- The scenarios of `generate_scenarios`, in insertion order. -/
def generate_scenarios : List Scenario :=
  [scenario_low, scenario_medium, scenario_high]

/-! ### `compare_all_scenarios` and `generate_report` -/

/-- One entry of the `results` dict of `compare_all_scenarios`. -/
structure ComparisonResult where
  aws : AwsResult
  azure : AzureResult
  savings_azure : ℚ
  savings_percentage : ℚ
  deriving Repr, DecidableEq

/-- The body of the loop in `compare_all_scenarios` for one scenario:
both provider computations must succeed (in Python an exception raised
by either aborts the run), then
`savings_azure = aws.total - azure.total` and
`savings_percentage = (aws.total - azure.total) / aws.total * 100`. -/
def compare_scenario (s : Scenario) : Option ComparisonResult :=
  match calculate_aws_costs s, calculate_azure_costs s with
  | some a, some z =>
      some ⟨a, z, a.total - z.total, (a.total - z.total) / a.total * 100⟩
  | _, _ => none

/-- `compare_all_scenarios`, one optional result per generated scenario,
input order preserved. -/
def compare_all_scenarios : List (Option ComparisonResult) :=
  generate_scenarios.map compare_scenario

/-- The `savings_percentage` expression of `compare_all_scenarios`
(line 305), written directly on the totals. -/
def savings_percentage_of (s : Scenario) : ℚ :=
  (aws_total_cost s - azure_total_cost s) / aws_total_cost s * 100

/-- `avg_azure_savings` in `generate_report` (line 326):
`sum([data['savings_percentage'] for data in results.values()]) / len(results)`. -/
def avg_azure_savings : ℚ :=
  ((generate_scenarios.map savings_percentage_of).sum) /
    (generate_scenarios.length : ℚ)

/-! ### Category grouping from the specification

The spec's data model groups the Cost Breakdown into five categories —
compute, storage, database, logging, additional — where for this script
compute covers Lambda/Functions plus the gateway/API-management entry
and logging covers CloudWatch/Monitor plus the search entry.  These
definitions follow the spec's words, to be compared against the code's
`total_cost` sums. -/

/-- Spec category: AWS compute = Lambda total + API Gateway. -/
def aws_compute_category (s : Scenario) : ℚ :=
  aws_lambda_total s + aws_api_gateway_cost s

/-- Spec category: AWS storage = S3 + CloudFront. -/
def aws_storage_category (s : Scenario) : ℚ := aws_s3_cloudfront_total s

/-- Spec category: AWS database. -/
def aws_database_category (s : Scenario) : ℚ := aws_database_cost s

/-- Spec category: AWS logging = CloudWatch + OpenSearch (matching the
numerator of the logging percentage). -/
def aws_logging_category (s : Scenario) : ℚ :=
  aws_cloudwatch_total s + aws_opensearch_cost s

/-- Spec category: AWS additional fees. -/
def aws_additional_category (s : Scenario) : ℚ := aws_additional_sum s

/-- Spec category: Azure compute = Functions total + API Management. -/
def azure_compute_category (s : Scenario) : ℚ :=
  azure_functions_total s + azure_apim_cost s

/-- Spec category: Azure storage = Static Web Apps (base, storage,
bandwidth). -/
def azure_storage_category (s : Scenario) : ℚ := azure_static_web_apps_total s

/-- Spec category: Azure database = Cosmos DB. -/
def azure_database_category (s : Scenario) : ℚ := azure_cosmos_db_cost s

/-- Spec category: Azure logging = Monitor + Cognitive Search (matching
the numerator of the logging percentage). -/
def azure_logging_category (s : Scenario) : ℚ :=
  azure_monitor_total s + azure_search_cost s

/-- Spec category: Azure additional fees. -/
def azure_additional_category (s : Scenario) : ℚ := azure_additional_sum s

end CloudCalc

namespace Accurate

/-- Scenario record for `accurate-cost-calculator.py`: the keys every
scenario dict in `calculate_costs` supplies and the cost functions read. -/
structure Scenario where
  monthly_requests : ℚ
  data_transfer_gb : ℚ
  storage_gb : ℚ
  log_volume_gb : ℚ
  users : ℚ
  deriving Repr, DecidableEq

/-- All numeric fields of the scenario are non-negative. -/
def Scenario.Nonneg (s : Scenario) : Prop :=
  0 ≤ s.monthly_requests ∧ 0 ≤ s.data_transfer_gb ∧ 0 ≤ s.storage_gb ∧
  0 ≤ s.log_volume_gb ∧ 0 ≤ s.users

instance (s : Scenario) : Decidable s.Nonneg := by
  unfold Scenario.Nonneg; infer_instance

/-! ### `calculate_aws_costs` (module-level function) -/

/-- `lambda_cost = max(0, (requests - 1000000) * 0.0000002)`. -/
def aws_lambda_cost (s : Scenario) : ℚ :=
  max 0 ((s.monthly_requests - 1000000) * 0.0000002)

/-- `api_gateway_cost = requests * 0.0000035`. -/
def aws_api_gateway_cost (s : Scenario) : ℚ := s.monthly_requests * 0.0000035

/-- `costs['compute']` for AWS. -/
def aws_compute (s : Scenario) : ℚ := aws_lambda_cost s + aws_api_gateway_cost s

/-- `costs['storage']` for AWS: `storage_gb * 0.023 + data_transfer_gb * 0.085`. -/
def aws_storage (s : Scenario) : ℚ :=
  s.storage_gb * 0.023 + s.data_transfer_gb * 0.085

/-- `costs['database']` for AWS: DocumentDB tier selected by user count
(lines 81-86). -/
def aws_database (s : Scenario) : ℚ :=
  if s.users ≤ 100 then 65
  else if s.users ≤ 1000 then 156
  else 625

/-- `cloudwatch_cost = log_gb * 0.50 + log_gb * 0.03`. -/
def aws_cloudwatch_cost (s : Scenario) : ℚ :=
  s.log_volume_gb * 0.50 + s.log_volume_gb * 0.03

/-- `opensearch_cost` tier selected by user count (lines 92-97). -/
def aws_opensearch_cost (s : Scenario) : ℚ :=
  if s.users ≤ 100 then 28
  else if s.users ≤ 1000 then 145
  else 567

/-- `costs['logging']` for AWS. -/
def aws_logging (s : Scenario) : ℚ := aws_cloudwatch_cost s + aws_opensearch_cost s

/-- `additional = 20` for AWS. -/
def aws_additional : ℚ := 20

/-- `total` in the AWS function. -/
def aws_total (s : Scenario) : ℚ :=
  aws_compute s + aws_storage s + aws_database s + aws_logging s + aws_additional

/-- Result dict returned by this script's cost functions. -/
structure Result where
  compute : ℚ
  storage : ℚ
  database : ℚ
  logging : ℚ
  total : ℚ
  logging_pct : ℚ
  deriving Repr, DecidableEq

/-- The return of this script's `calculate_aws_costs`: `none` models the
Python `ZeroDivisionError` in `logging_pct` when `total` is zero. -/
def calculate_aws_costs (s : Scenario) : Option Result :=
  if aws_total s = 0 then none
  else some ⟨aws_compute s, aws_storage s, aws_database s, aws_logging s,
    aws_total s, aws_logging s / aws_total s * 100⟩

/-! ### `calculate_azure_costs` (module-level function) -/

/-- `functions_cost = max(0, (requests - 1000000) * 0.0000002)`. -/
def azure_functions_cost (s : Scenario) : ℚ :=
  max 0 ((s.monthly_requests - 1000000) * 0.0000002)

/-- `apim_cost` tier selected by user count (lines 123-128). -/
def azure_apim_cost (s : Scenario) : ℚ :=
  if s.users ≤ 100 then 48
  else if s.users ≤ 1000 then 268
  else 2845

/-- `costs['compute']` for Azure. -/
def azure_compute (s : Scenario) : ℚ := azure_functions_cost s + azure_apim_cost s

/-- `costs['storage']` for Azure:
`storage_gb * 0.18 + data_transfer_gb * 0.15 + 9`. -/
def azure_storage (s : Scenario) : ℚ :=
  s.storage_gb * 0.18 + s.data_transfer_gb * 0.15 + 9

/-- `ru_cost`, the Cosmos DB request-unit cost selected by user count
(lines 139-144): provisioned RU/s times `0.008` times `730`. -/
def azure_ru_cost (s : Scenario) : ℚ :=
  if s.users ≤ 100 then 1000 * 0.008 * 730
  else if s.users ≤ 1000 then 5000 * 0.008 * 730
  else 25000 * 0.008 * 730

/-- `costs['database']` for Azure. -/
def azure_database (s : Scenario) : ℚ := azure_ru_cost s

/-- `monitor_cost = log_gb * 0.27 + log_gb * 0.12`. -/
def azure_monitor_cost (s : Scenario) : ℚ :=
  s.log_volume_gb * 0.27 + s.log_volume_gb * 0.12

/-- `search_cost` tier selected by user count (lines 152-157). -/
def azure_search_cost (s : Scenario) : ℚ :=
  if s.users ≤ 100 then 25
  else if s.users ≤ 1000 then 89
  else 445

/-- `costs['logging']` for Azure. -/
def azure_logging (s : Scenario) : ℚ := azure_monitor_cost s + azure_search_cost s

/-- `additional = 15` for Azure. -/
def azure_additional : ℚ := 15

/-- `total` in the Azure function. -/
def azure_total (s : Scenario) : ℚ :=
  azure_compute s + azure_storage s + azure_database s + azure_logging s +
  azure_additional

/-- The return of this script's `calculate_azure_costs`: `none` models
the Python `ZeroDivisionError` in `logging_pct` when `total` is zero. -/
def calculate_azure_costs (s : Scenario) : Option Result :=
  if azure_total s = 0 then none
  else some ⟨azure_compute s, azure_storage s, azure_database s, azure_logging s,
    azure_total s, azure_logging s / azure_total s * 100⟩

/-- `savings = aws_costs['total'] - azure_costs['total']` in
`calculate_costs` (line 55). -/
def savings (s : Scenario) : ℚ := aws_total s - azure_total s

/-- `savings_pct = (savings / aws_costs['total']) * 100` in
`calculate_costs` (line 56). -/
def savings_pct (s : Scenario) : ℚ := savings s / aws_total s * 100

end Accurate

namespace CloudCalc

/-- Pointwise comparison of two scenarios on every numeric field,
optional fields compared after resolving their defaults.  `s.Le t` holds
exactly when `t` raises (weakly) every field of `s`; raising a single
field while holding the others fixed is the special case where all other
conjuncts hold by reflexivity. -/
def Scenario.Le (s t : Scenario) : Prop :=
  s.requests_per_month ≤ t.requests_per_month ∧
  s.avg_duration_seconds ≤ t.avg_duration_seconds ∧
  s.memory_gb ≤ t.memory_gb ∧ s.storage_gb ≤ t.storage_gb ∧
  s.cdn_transfer_gb ≤ t.cdn_transfer_gb ∧ s.log_volume_gb ≤ t.log_volume_gb ∧
  s.metrics_count ≤ t.metrics_count ∧ s.alarms_count ≤ t.alarms_count ∧
  s.database_cost ≤ t.database_cost ∧ s.opensearch_cost ≤ t.opensearch_cost ∧
  s.apim_tier_cost ≤ t.apim_tier_cost ∧
  s.cosmos_ru_per_second ≤ t.cosmos_ru_per_second ∧
  s.search_tier_cost ≤ t.search_tier_cost ∧
  s.cognito_costD ≤ t.cognito_costD ∧
  s.notification_costD ≤ t.notification_costD ∧
  s.waf_costD ≤ t.waf_costD ∧
  s.aws_data_transfer_costD ≤ t.aws_data_transfer_costD ∧
  s.ad_b2c_costD ≤ t.ad_b2c_costD ∧
  s.logic_apps_costD ≤ t.logic_apps_costD ∧
  s.app_gateway_costD ≤ t.app_gateway_costD ∧
  s.key_vault_costD ≤ t.key_vault_costD ∧
  s.azure_data_transfer_costD ≤ t.azure_data_transfer_costD

instance (s t : Scenario) : Decidable (s.Le t) := by
  unfold Scenario.Le; infer_instance

/-- Stated from the spec's words: the alternative, weighted recomputation
of the overall savings percentage from the summed totals, which the spec
says the report does NOT use.  To be compared with `avg_azure_savings`. -/
def weighted_savings_percentage : ℚ :=
  ((generate_scenarios.map aws_total_cost).sum -
      (generate_scenarios.map azure_total_cost).sum) /
    (generate_scenarios.map aws_total_cost).sum * 100

end CloudCalc

/-- A common input for the two scripts, phrased for the class-based
script: the usage quantities of the `low`-style scenario (45000 monthly
requests, 200 GB transfer, 50 GB storage, 10 GB logs) together with the
tier prices the function-based script would itself select for a
100-user deployment (DocumentDB 65, OpenSearch 28, APIM 48, 1000 RU/s,
search 25); duration and memory keep the function-based script's
implicit assumption that compute stays inside the free tier, and the
extra metric/alarm counts are zero. -/
def common_cloud_scenario : CloudCalc.Scenario where
  requests_per_month := 45000
  avg_duration_seconds := 2
  memory_gb := 0.5
  storage_gb := 50
  cdn_transfer_gb := 200
  log_volume_gb := 10
  metrics_count := 0
  alarms_count := 0
  database_cost := 65
  opensearch_cost := 28
  apim_tier_cost := 48
  cosmos_ru_per_second := 1000
  search_tier_cost := 25

/-- The same common input phrased for the function-based script (its
`low` scenario: 45000 requests, 200 GB transfer, 50 GB storage,
10 GB logs, 100 users). -/
def common_accurate_scenario : Accurate.Scenario where
  monthly_requests := 45000
  data_transfer_gb := 200
  storage_gb := 50
  log_volume_gb := 10
  users := 100

/-- The low-usage scenario with only the monthly request count raised
to 500000 (still under the request free tier); every tier-price field is
unchanged.  Used to show the gateway part of the AWS compute cost is not
a fixed price selected by the scenario's tier. -/
def scenario_low_more_requests : CloudCalc.Scenario :=
  { CloudCalc.scenario_low with requests_per_month := 500000 }

/-! ## Helper lemmas -/

/-- A free-tier clamp `max(0, (r - c) * p)` is zero whenever the metered
quantity is below the free-tier threshold and the price is non-negative. -/
theorem clamp_eq_zero {r c p : ℚ} (hp : 0 ≤ p) (h : r ≤ c) :
    max 0 ((r - c) * p) = 0 :=
  max_eq_left (mul_nonpos_of_nonpos_of_nonneg (by linarith) hp)

/-- A free-tier clamp is monotone in the metered quantity. -/
theorem clamp_mono {r r' c p : ℚ} (hp : 0 ≤ p) (h : r ≤ r') :
    max 0 ((r - c) * p) ≤ max 0 ((r' - c) * p) :=
  max_le_max le_rfl (mul_le_mul_of_nonneg_right (by linarith) hp)

namespace CloudCalc

/-- Every summand of the AWS grand total is non-negative for a
non-negative scenario. -/
theorem aws_parts_nonneg {s : Scenario} (h : s.Nonneg) :
    0 ≤ aws_lambda_total s ∧ 0 ≤ aws_api_gateway_cost s ∧
    0 ≤ aws_s3_cloudfront_total s ∧ 0 ≤ aws_database_cost s ∧
    0 ≤ aws_cloudwatch_total s ∧ 0 ≤ aws_opensearch_cost s ∧
    0 ≤ aws_additional_sum s := by
  obtain ⟨h1, h2, h3, h4, h5, h6, h7, h8, h9, h10, h11, h12, h13, h14, h15,
    h16, h17, h18, h19, h20, h21, h22⟩ := h
  refine ⟨add_nonneg (le_max_left 0 _) (le_max_left 0 _),
    mul_nonneg h1 (by norm_num [aws_pricing_api_gateway_requests]),
    add_nonneg (mul_nonneg h4 (by norm_num [aws_pricing_s3_storage]))
      (mul_nonneg h5 (by norm_num [aws_pricing_cloudfront_transfer])),
    h9, ?_, h10, add_nonneg (add_nonneg (add_nonneg h14 h15) h16) h17⟩
  exact add_nonneg (add_nonneg (add_nonneg
    (mul_nonneg h6 (by norm_num [aws_pricing_cloudwatch_ingestion]))
    (mul_nonneg h6 (by norm_num [aws_pricing_cloudwatch_storage])))
    (mul_nonneg h7 (by norm_num [aws_pricing_cloudwatch_metrics])))
    (mul_nonneg h8 (by norm_num [aws_pricing_cloudwatch_alarms]))

/-- The AWS grand total is non-negative for a non-negative scenario. -/
theorem aws_total_cost_nonneg {s : Scenario} (h : s.Nonneg) :
    0 ≤ aws_total_cost s := by
  obtain ⟨p1, p2, p3, p4, p5, p6, p7⟩ := aws_parts_nonneg h
  unfold aws_total_cost
  linarith

/-- Every summand of the Azure grand total is non-negative for a
non-negative scenario. -/
theorem azure_parts_nonneg {s : Scenario} (h : s.Nonneg) :
    0 ≤ azure_functions_total s ∧ 0 ≤ azure_apim_cost s ∧
    0 ≤ azure_static_web_apps_total s ∧ 0 ≤ azure_cosmos_db_cost s ∧
    0 ≤ azure_monitor_total s ∧ 0 ≤ azure_search_cost s ∧
    0 ≤ azure_additional_sum s := by
  obtain ⟨h1, h2, h3, h4, h5, h6, h7, h8, h9, h10, h11, h12, h13, h14, h15,
    h16, h17, h18, h19, h20, h21, h22⟩ := h
  refine ⟨add_nonneg (le_max_left 0 _) (le_max_left 0 _), h11, ?_,
    mul_nonneg (mul_nonneg h12
      (by norm_num [azure_pricing_cosmos_db_ru_per_second])) (by norm_num),
    add_nonneg (mul_nonneg h6 (by norm_num [azure_pricing_monitor_ingestion]))
      (mul_nonneg h6 (by norm_num [azure_pricing_monitor_retention_basic])),
    h13,
    add_nonneg (add_nonneg (add_nonneg (add_nonneg h18 h19) h20) h21) h22⟩
  exact add_nonneg (add_nonneg
    (by norm_num [azure_pricing_static_web_apps_standard])
    (mul_nonneg h4 (by norm_num [azure_pricing_static_web_apps_storage])))
    (mul_nonneg h5 (by norm_num [azure_pricing_static_web_apps_bandwidth]))

/-- The Azure grand total is non-negative for a non-negative scenario. -/
theorem azure_total_cost_nonneg {s : Scenario} (h : s.Nonneg) :
    0 ≤ azure_total_cost s := by
  obtain ⟨p1, p2, p3, p4, p5, p6, p7⟩ := azure_parts_nonneg h
  unfold azure_total_cost
  linarith

/-- Inversion of `calculate_aws_costs`. -/
theorem calculate_aws_costs_eq_some {s : Scenario} {r : AwsResult} :
    calculate_aws_costs s = some r ↔
      aws_total_cost s ≠ 0 ∧
      r = ⟨aws_total_cost s,
        (aws_cloudwatch_total s + aws_opensearch_cost s) /
          aws_total_cost s * 100⟩ := by
  unfold calculate_aws_costs
  split_ifs with h
  · simp [h]
  · simp [h, eq_comm]

/-- Inversion of `calculate_azure_costs`. -/
theorem calculate_azure_costs_eq_some {s : Scenario} {r : AzureResult} :
    calculate_azure_costs s = some r ↔
      azure_total_cost s ≠ 0 ∧
      r = ⟨azure_total_cost s,
        (azure_monitor_total s + azure_search_cost s) /
          azure_total_cost s * 100⟩ := by
  unfold calculate_azure_costs
  split_ifs with h
  · simp [h]
  · simp [h, eq_comm]

/-- Inversion of `compare_scenario`. -/
theorem compare_scenario_eq_some {s : Scenario} {r : ComparisonResult} :
    compare_scenario s = some r ↔
      aws_total_cost s ≠ 0 ∧ azure_total_cost s ≠ 0 ∧
      r = ⟨⟨aws_total_cost s,
            (aws_cloudwatch_total s + aws_opensearch_cost s) /
              aws_total_cost s * 100⟩,
          ⟨azure_total_cost s,
            (azure_monitor_total s + azure_search_cost s) /
              azure_total_cost s * 100⟩,
          aws_total_cost s - azure_total_cost s,
          (aws_total_cost s - azure_total_cost s) /
            aws_total_cost s * 100⟩ := by
  unfold compare_scenario calculate_aws_costs calculate_azure_costs
  split_ifs with h1 h2
  · simp [h1]
  · constructor
    · intro hco
      exact absurd hco (by simp)
    · rintro ⟨-, hz, -⟩
      exact absurd h2 hz
  · simp [h1, h2, eq_comm]

end CloudCalc

namespace Accurate

/-- The function-based script's AWS grand total is strictly positive for
a non-negative scenario (the fixed database tier and additional fee
dominate). -/
theorem aws_total_pos {s : Scenario} (h : s.Nonneg) : 0 < aws_total s := by
  obtain ⟨h1, h2, h3, h4, h5⟩ := h
  have hc : 0 ≤ aws_compute s :=
    add_nonneg (le_max_left 0 _) (mul_nonneg h1 (by norm_num))
  have hs : 0 ≤ aws_storage s :=
    add_nonneg (mul_nonneg h3 (by norm_num)) (mul_nonneg h2 (by norm_num))
  have hd : (65 : ℚ) ≤ aws_database s := by
    unfold aws_database; split_ifs <;> norm_num
  have hl : 0 ≤ aws_logging s := by
    have hcw : 0 ≤ aws_cloudwatch_cost s :=
      add_nonneg (mul_nonneg h4 (by norm_num)) (mul_nonneg h4 (by norm_num))
    have hos : (28 : ℚ) ≤ aws_opensearch_cost s := by
      unfold aws_opensearch_cost; split_ifs <;> norm_num
    unfold aws_logging; linarith
  unfold aws_total aws_additional
  linarith

/-- The function-based script's Azure grand total is strictly positive
for a non-negative scenario. -/
theorem azure_total_pos {s : Scenario} (h : s.Nonneg) : 0 < azure_total s := by
  obtain ⟨h1, h2, h3, h4, h5⟩ := h
  have hc : 0 ≤ azure_compute s := by
    have ha : (48 : ℚ) ≤ azure_apim_cost s := by
      unfold azure_apim_cost; split_ifs <;> norm_num
    have hf : 0 ≤ azure_functions_cost s := le_max_left 0 _
    unfold azure_compute; linarith
  have hs : 0 ≤ azure_storage s := by
    have := mul_nonneg h3 (show (0 : ℚ) ≤ 0.18 by norm_num)
    have := mul_nonneg h2 (show (0 : ℚ) ≤ 0.15 by norm_num)
    unfold azure_storage; linarith
  have hd : 0 ≤ azure_database s := by
    unfold azure_database azure_ru_cost; split_ifs <;> norm_num
  have hl : 0 ≤ azure_logging s := by
    have hm : 0 ≤ azure_monitor_cost s :=
      add_nonneg (mul_nonneg h4 (by norm_num)) (mul_nonneg h4 (by norm_num))
    have hse : (25 : ℚ) ≤ azure_search_cost s := by
      unfold azure_search_cost; split_ifs <;> norm_num
    unfold azure_logging; linarith
  unfold azure_total azure_additional
  linarith

end Accurate

namespace CloudCalc

/-- The low-usage scenario has non-negative fields. -/
theorem scenario_low_nonneg : scenario_low.Nonneg := by
  norm_num [Scenario.Nonneg, scenario_low, Scenario.cognito_costD,
    Scenario.notification_costD, Scenario.waf_costD,
    Scenario.aws_data_transfer_costD, Scenario.ad_b2c_costD,
    Scenario.logic_apps_costD, Scenario.app_gateway_costD,
    Scenario.key_vault_costD, Scenario.azure_data_transfer_costD]

/-- AWS grand total of the low-usage scenario: 150.125 dollars. -/
theorem aws_total_cost_scenario_low : aws_total_cost scenario_low = 1201 / 8 := by
  norm_num [aws_total_cost, aws_lambda_total, aws_lambda_requests_cost,
    aws_lambda_execution_cost, aws_gb_seconds, aws_api_gateway_cost,
    aws_s3_cloudfront_total, aws_s3_storage_cost, aws_cloudfront_transfer_cost,
    aws_database_cost, aws_cloudwatch_total, aws_opensearch_cost,
    aws_additional_sum, scenario_low, Scenario.cognito_costD,
    Scenario.notification_costD, Scenario.waf_costD,
    Scenario.aws_data_transfer_costD, aws_pricing_lambda_requests,
    aws_pricing_lambda_gb_seconds, aws_pricing_api_gateway_requests,
    aws_pricing_s3_storage, aws_pricing_cloudfront_transfer,
    aws_pricing_cloudwatch_ingestion, aws_pricing_cloudwatch_storage,
    aws_pricing_cloudwatch_metrics, aws_pricing_cloudwatch_alarms, max_def]

/-- Azure grand total of the low-usage scenario: 5985.90 dollars. -/
theorem azure_total_cost_scenario_low :
    azure_total_cost scenario_low = 59859 / 10 := by
  norm_num [azure_total_cost, azure_functions_total,
    azure_functions_requests_cost, azure_functions_execution_cost,
    azure_gb_seconds, azure_apim_cost, azure_static_web_apps_total,
    azure_cosmos_db_cost, azure_monitor_total, azure_search_cost,
    azure_additional_sum, scenario_low, Scenario.ad_b2c_costD,
    Scenario.logic_apps_costD, Scenario.app_gateway_costD,
    Scenario.key_vault_costD, Scenario.azure_data_transfer_costD,
    azure_pricing_functions_requests, azure_pricing_functions_gb_seconds,
    azure_pricing_static_web_apps_standard, azure_pricing_static_web_apps_storage,
    azure_pricing_static_web_apps_bandwidth, azure_pricing_cosmos_db_ru_per_second,
    azure_pricing_monitor_ingestion, azure_pricing_monitor_retention_basic,
    max_def]

/-- AWS logging numerator (CloudWatch + OpenSearch) of the low-usage
scenario: 49.30 dollars. -/
theorem aws_logging_scenario_low :
    aws_cloudwatch_total scenario_low + aws_opensearch_cost scenario_low =
      493 / 10 := by
  norm_num [aws_cloudwatch_total, aws_opensearch_cost, scenario_low,
    aws_pricing_cloudwatch_ingestion, aws_pricing_cloudwatch_storage,
    aws_pricing_cloudwatch_metrics, aws_pricing_cloudwatch_alarms]

/-- Azure logging numerator (Monitor + Cognitive Search) of the
low-usage scenario: 28.90 dollars. -/
theorem azure_logging_scenario_low :
    azure_monitor_total scenario_low + azure_search_cost scenario_low =
      289 / 10 := by
  norm_num [azure_monitor_total, azure_search_cost, scenario_low,
    azure_pricing_monitor_ingestion, azure_pricing_monitor_retention_basic]

/-- Concrete run of `calculate_aws_costs` on the low-usage scenario. -/
theorem calculate_aws_costs_scenario_low :
    calculate_aws_costs scenario_low = some ⟨1201 / 8, 39440 / 1201⟩ :=
  calculate_aws_costs_eq_some.mpr ⟨by norm_num [aws_total_cost_scenario_low], by
    rw [aws_total_cost_scenario_low, aws_logging_scenario_low]
    norm_num [AwsResult.mk.injEq]⟩

/-- Concrete run of `calculate_azure_costs` on the low-usage scenario. -/
theorem calculate_azure_costs_scenario_low :
    calculate_azure_costs scenario_low = some ⟨59859 / 10, 28900 / 59859⟩ :=
  calculate_azure_costs_eq_some.mpr ⟨by norm_num [azure_total_cost_scenario_low], by
    rw [azure_total_cost_scenario_low, azure_logging_scenario_low]
    norm_num [AzureResult.mk.injEq]⟩

/-- Concrete run of `compare_scenario` on the low-usage scenario:
Azure is 5835.775 dollars per month MORE expensive there, a savings of
-3887.28 percent relative to the AWS total. -/
theorem compare_scenario_scenario_low :
    compare_scenario scenario_low =
      some ⟨⟨1201 / 8, 39440 / 1201⟩, ⟨59859 / 10, 28900 / 59859⟩,
        -233431 / 40, -4668620 / 1201⟩ :=
  compare_scenario_eq_some.mpr ⟨by norm_num [aws_total_cost_scenario_low],
    by norm_num [azure_total_cost_scenario_low], by
    rw [aws_total_cost_scenario_low, azure_total_cost_scenario_low,
      aws_logging_scenario_low, azure_logging_scenario_low]
    norm_num [ComparisonResult.mk.injEq, AwsResult.mk.injEq,
      AzureResult.mk.injEq]⟩

/-- AWS grand total of the medium-usage scenario. -/
theorem aws_total_cost_scenario_medium :
    aws_total_cost scenario_medium = 63078337 / 100000 := by
  norm_num [aws_total_cost, aws_lambda_total, aws_lambda_requests_cost,
    aws_lambda_execution_cost, aws_gb_seconds, aws_api_gateway_cost,
    aws_s3_cloudfront_total, aws_s3_storage_cost, aws_cloudfront_transfer_cost,
    aws_database_cost, aws_cloudwatch_total, aws_opensearch_cost,
    aws_additional_sum, scenario_medium, Scenario.cognito_costD,
    Scenario.notification_costD, Scenario.waf_costD,
    Scenario.aws_data_transfer_costD, aws_pricing_lambda_requests,
    aws_pricing_lambda_gb_seconds, aws_pricing_api_gateway_requests,
    aws_pricing_s3_storage, aws_pricing_cloudfront_transfer,
    aws_pricing_cloudwatch_ingestion, aws_pricing_cloudwatch_storage,
    aws_pricing_cloudwatch_metrics, aws_pricing_cloudwatch_alarms, max_def]

/-- Azure grand total of the medium-usage scenario. -/
theorem azure_total_cost_scenario_medium :
    azure_total_cost scenario_medium = 299137 / 10 := by
  norm_num [azure_total_cost, azure_functions_total,
    azure_functions_requests_cost, azure_functions_execution_cost,
    azure_gb_seconds, azure_apim_cost, azure_static_web_apps_total,
    azure_cosmos_db_cost, azure_monitor_total, azure_search_cost,
    azure_additional_sum, scenario_medium, Scenario.ad_b2c_costD,
    Scenario.logic_apps_costD, Scenario.app_gateway_costD,
    Scenario.key_vault_costD, Scenario.azure_data_transfer_costD,
    azure_pricing_functions_requests, azure_pricing_functions_gb_seconds,
    azure_pricing_static_web_apps_standard, azure_pricing_static_web_apps_storage,
    azure_pricing_static_web_apps_bandwidth, azure_pricing_cosmos_db_ru_per_second,
    azure_pricing_monitor_ingestion, azure_pricing_monitor_retention_basic,
    max_def]

/-- AWS grand total of the high-usage scenario. -/
theorem aws_total_cost_scenario_high :
    aws_total_cost scenario_high = 374681741 / 50000 := by
  norm_num [aws_total_cost, aws_lambda_total, aws_lambda_requests_cost,
    aws_lambda_execution_cost, aws_gb_seconds, aws_api_gateway_cost,
    aws_s3_cloudfront_total, aws_s3_storage_cost, aws_cloudfront_transfer_cost,
    aws_database_cost, aws_cloudwatch_total, aws_opensearch_cost,
    aws_additional_sum, scenario_high, Scenario.cognito_costD,
    Scenario.notification_costD, Scenario.waf_costD,
    Scenario.aws_data_transfer_costD, aws_pricing_lambda_requests,
    aws_pricing_lambda_gb_seconds, aws_pricing_api_gateway_requests,
    aws_pricing_s3_storage, aws_pricing_cloudfront_transfer,
    aws_pricing_cloudwatch_ingestion, aws_pricing_cloudwatch_storage,
    aws_pricing_cloudwatch_metrics, aws_pricing_cloudwatch_alarms, max_def]

/-- Azure grand total of the high-usage scenario. -/
theorem azure_total_cost_scenario_high :
    azure_total_cost scenario_high = 764607 / 5 := by
  norm_num [azure_total_cost, azure_functions_total,
    azure_functions_requests_cost, azure_functions_execution_cost,
    azure_gb_seconds, azure_apim_cost, azure_static_web_apps_total,
    azure_cosmos_db_cost, azure_monitor_total, azure_search_cost,
    azure_additional_sum, scenario_high, Scenario.ad_b2c_costD,
    Scenario.logic_apps_costD, Scenario.app_gateway_costD,
    Scenario.key_vault_costD, Scenario.azure_data_transfer_costD,
    azure_pricing_functions_requests, azure_pricing_functions_gb_seconds,
    azure_pricing_static_web_apps_standard, azure_pricing_static_web_apps_storage,
    azure_pricing_static_web_apps_bandwidth, azure_pricing_cosmos_db_ru_per_second,
    azure_pricing_monitor_ingestion, azure_pricing_monitor_retention_basic,
    max_def]

end CloudCalc

/-- AWS grand total of the common input under the class-based script:
142.6075 dollars. -/
theorem cloud_aws_total_common :
    CloudCalc.aws_total_cost common_cloud_scenario = 57043 / 400 := by
  norm_num [CloudCalc.aws_total_cost, CloudCalc.aws_lambda_total,
    CloudCalc.aws_lambda_requests_cost, CloudCalc.aws_lambda_execution_cost,
    CloudCalc.aws_gb_seconds, CloudCalc.aws_api_gateway_cost,
    CloudCalc.aws_s3_cloudfront_total, CloudCalc.aws_s3_storage_cost,
    CloudCalc.aws_cloudfront_transfer_cost, CloudCalc.aws_database_cost,
    CloudCalc.aws_cloudwatch_total, CloudCalc.aws_opensearch_cost,
    CloudCalc.aws_additional_sum, common_cloud_scenario,
    CloudCalc.Scenario.cognito_costD, CloudCalc.Scenario.notification_costD,
    CloudCalc.Scenario.waf_costD, CloudCalc.Scenario.aws_data_transfer_costD,
    CloudCalc.aws_pricing_lambda_requests, CloudCalc.aws_pricing_lambda_gb_seconds,
    CloudCalc.aws_pricing_api_gateway_requests, CloudCalc.aws_pricing_s3_storage,
    CloudCalc.aws_pricing_cloudfront_transfer,
    CloudCalc.aws_pricing_cloudwatch_ingestion,
    CloudCalc.aws_pricing_cloudwatch_storage,
    CloudCalc.aws_pricing_cloudwatch_metrics,
    CloudCalc.aws_pricing_cloudwatch_alarms, max_def]

/-- Azure grand total of the common input under the class-based script:
6000.90 dollars. -/
theorem cloud_azure_total_common :
    CloudCalc.azure_total_cost common_cloud_scenario = 60009 / 10 := by
  norm_num [CloudCalc.azure_total_cost, CloudCalc.azure_functions_total,
    CloudCalc.azure_functions_requests_cost,
    CloudCalc.azure_functions_execution_cost, CloudCalc.azure_gb_seconds,
    CloudCalc.azure_apim_cost, CloudCalc.azure_static_web_apps_total,
    CloudCalc.azure_cosmos_db_cost, CloudCalc.azure_monitor_total,
    CloudCalc.azure_search_cost, CloudCalc.azure_additional_sum,
    common_cloud_scenario, CloudCalc.Scenario.ad_b2c_costD,
    CloudCalc.Scenario.logic_apps_costD, CloudCalc.Scenario.app_gateway_costD,
    CloudCalc.Scenario.key_vault_costD,
    CloudCalc.Scenario.azure_data_transfer_costD,
    CloudCalc.azure_pricing_functions_requests,
    CloudCalc.azure_pricing_functions_gb_seconds,
    CloudCalc.azure_pricing_static_web_apps_standard,
    CloudCalc.azure_pricing_static_web_apps_storage,
    CloudCalc.azure_pricing_static_web_apps_bandwidth,
    CloudCalc.azure_pricing_cosmos_db_ru_per_second,
    CloudCalc.azure_pricing_monitor_ingestion,
    CloudCalc.azure_pricing_monitor_retention_basic, max_def]

/-- AWS grand total of the common input under the function-based script:
136.6075 dollars. -/
theorem acc_aws_total_common :
    Accurate.aws_total common_accurate_scenario = 54643 / 400 := by
  norm_num [Accurate.aws_total, Accurate.aws_compute, Accurate.aws_lambda_cost,
    Accurate.aws_api_gateway_cost, Accurate.aws_storage, Accurate.aws_database,
    Accurate.aws_logging, Accurate.aws_cloudwatch_cost,
    Accurate.aws_opensearch_cost, Accurate.aws_additional,
    common_accurate_scenario, max_def]

/-- Azure grand total of the common input under the function-based
script: 5979.90 dollars. -/
theorem acc_azure_total_common :
    Accurate.azure_total common_accurate_scenario = 59799 / 10 := by
  norm_num [Accurate.azure_total, Accurate.azure_compute,
    Accurate.azure_functions_cost, Accurate.azure_apim_cost,
    Accurate.azure_storage, Accurate.azure_database, Accurate.azure_ru_cost,
    Accurate.azure_logging, Accurate.azure_monitor_cost,
    Accurate.azure_search_cost, Accurate.azure_additional,
    common_accurate_scenario, max_def]

/-- The common accurate-script input has non-negative fields. -/
theorem common_accurate_scenario_nonneg : common_accurate_scenario.Nonneg := by
  norm_num [Accurate.Scenario.Nonneg, common_accurate_scenario]

/-! ## Claims -/

/-- C1, counterexample.  The claim says a provider's compute cost is the
two free-tier clamps plus the FIXED gateway/API-management tier price of
the scenario.  The low-usage scenario has non-negative fields, its
clamps are both zero, yet the AWS compute cost (0.175, the per-request
API-Gateway charge on 50000 requests) differs from the clamps plus the
scenario's fixed API-management tier price (48): the AWS gateway charge
is per-request, not a fixed tier price.  Moreover no fixed tier price at
all can fill that role: a second scenario with identical tier-price
fields (only the request count raised, still under the free tier) has a
different compute residual above the two clamps. -/
theorem claim_C1_counterexample :
    CloudCalc.scenario_low.Nonneg ∧
    CloudCalc.aws_compute_category CloudCalc.scenario_low ≠
      CloudCalc.aws_lambda_requests_cost CloudCalc.scenario_low +
        CloudCalc.aws_lambda_execution_cost CloudCalc.scenario_low +
        CloudCalc.scenario_low.apim_tier_cost ∧
    scenario_low_more_requests.Nonneg ∧
    CloudCalc.scenario_low.database_cost =
      scenario_low_more_requests.database_cost ∧
    CloudCalc.scenario_low.opensearch_cost =
      scenario_low_more_requests.opensearch_cost ∧
    CloudCalc.scenario_low.apim_tier_cost =
      scenario_low_more_requests.apim_tier_cost ∧
    CloudCalc.scenario_low.search_tier_cost =
      scenario_low_more_requests.search_tier_cost ∧
    CloudCalc.aws_compute_category CloudCalc.scenario_low -
        (CloudCalc.aws_lambda_requests_cost CloudCalc.scenario_low +
          CloudCalc.aws_lambda_execution_cost CloudCalc.scenario_low) ≠
      CloudCalc.aws_compute_category scenario_low_more_requests -
        (CloudCalc.aws_lambda_requests_cost scenario_low_more_requests +
          CloudCalc.aws_lambda_execution_cost scenario_low_more_requests) := by
  refine ⟨CloudCalc.scenario_low_nonneg, ?_, ?_, rfl, rfl, rfl, rfl, ?_⟩
  · norm_num [CloudCalc.aws_compute_category, CloudCalc.aws_lambda_total,
      CloudCalc.aws_lambda_requests_cost, CloudCalc.aws_lambda_execution_cost,
      CloudCalc.aws_gb_seconds, CloudCalc.aws_api_gateway_cost,
      CloudCalc.scenario_low, CloudCalc.aws_pricing_lambda_requests,
      CloudCalc.aws_pricing_lambda_gb_seconds,
      CloudCalc.aws_pricing_api_gateway_requests, max_def]
  · norm_num [CloudCalc.Scenario.Nonneg, scenario_low_more_requests,
      CloudCalc.scenario_low, CloudCalc.Scenario.cognito_costD,
      CloudCalc.Scenario.notification_costD, CloudCalc.Scenario.waf_costD,
      CloudCalc.Scenario.aws_data_transfer_costD,
      CloudCalc.Scenario.ad_b2c_costD, CloudCalc.Scenario.logic_apps_costD,
      CloudCalc.Scenario.app_gateway_costD, CloudCalc.Scenario.key_vault_costD,
      CloudCalc.Scenario.azure_data_transfer_costD]
  · norm_num [CloudCalc.aws_compute_category, CloudCalc.aws_lambda_total,
      CloudCalc.aws_lambda_requests_cost, CloudCalc.aws_lambda_execution_cost,
      CloudCalc.aws_gb_seconds, CloudCalc.aws_api_gateway_cost,
      scenario_low_more_requests, CloudCalc.scenario_low,
      CloudCalc.aws_pricing_lambda_requests,
      CloudCalc.aws_pricing_lambda_gb_seconds,
      CloudCalc.aws_pricing_api_gateway_requests, max_def]

/-- C1, amended.  For every scenario, each provider's compute cost is
the clamped per-request charge plus the clamped per-GB-second charge
plus a gateway component — for AWS the PER-REQUEST API-Gateway charge
`requests * 0.0000035`, for Azure the scenario's fixed API-management
tier price; and whenever requests ≤ 1,000,000 the clamped per-request
component is exactly 0 for both providers. -/
theorem claim_C1_compute_cost (s : CloudCalc.Scenario) :
    CloudCalc.aws_compute_category s =
      max 0 ((s.requests_per_month - 1000000) *
          CloudCalc.aws_pricing_lambda_requests) +
        max 0 ((CloudCalc.aws_gb_seconds s - 400000) *
          CloudCalc.aws_pricing_lambda_gb_seconds) +
        s.requests_per_month * CloudCalc.aws_pricing_api_gateway_requests ∧
    CloudCalc.azure_compute_category s =
      max 0 ((s.requests_per_month - 1000000) *
          CloudCalc.azure_pricing_functions_requests) +
        max 0 ((CloudCalc.azure_gb_seconds s - 400000) *
          CloudCalc.azure_pricing_functions_gb_seconds) +
        s.apim_tier_cost ∧
    (s.requests_per_month ≤ 1000000 →
      CloudCalc.aws_lambda_requests_cost s = 0 ∧
      CloudCalc.azure_functions_requests_cost s = 0) :=
  ⟨rfl, rfl, fun h =>
    ⟨clamp_eq_zero (by norm_num [CloudCalc.aws_pricing_lambda_requests]) h,
     clamp_eq_zero (by norm_num [CloudCalc.azure_pricing_functions_requests]) h⟩⟩

/-- C1, witness: the low-usage scenario is under the free tier, so both
clamped per-request components vanish. -/
theorem claim_C1_compute_cost_witness :
    CloudCalc.aws_lambda_requests_cost CloudCalc.scenario_low = 0 ∧
    CloudCalc.azure_functions_requests_cost CloudCalc.scenario_low = 0 :=
  (claim_C1_compute_cost CloudCalc.scenario_low).2.2
    (by norm_num [CloudCalc.scenario_low])

/-- C2: in both scripts and for both providers the grand total equals
exactly the sum of the five category sub-totals — compute, storage,
database, logging, additional — with no category double-counted and
none omitted. -/
theorem claim_C2_grand_total :
    (∀ s : CloudCalc.Scenario,
      CloudCalc.aws_total_cost s =
        CloudCalc.aws_compute_category s + CloudCalc.aws_storage_category s +
          CloudCalc.aws_database_category s + CloudCalc.aws_logging_category s +
          CloudCalc.aws_additional_category s ∧
      CloudCalc.azure_total_cost s =
        CloudCalc.azure_compute_category s + CloudCalc.azure_storage_category s +
          CloudCalc.azure_database_category s +
          CloudCalc.azure_logging_category s +
          CloudCalc.azure_additional_category s) ∧
    (∀ s : Accurate.Scenario,
      Accurate.aws_total s =
        Accurate.aws_compute s + Accurate.aws_storage s +
          Accurate.aws_database s + Accurate.aws_logging s +
          Accurate.aws_additional ∧
      Accurate.azure_total s =
        Accurate.azure_compute s + Accurate.azure_storage s +
          Accurate.azure_database s + Accurate.azure_logging s +
          Accurate.azure_additional) := by
  refine ⟨fun s => ⟨?_, ?_⟩, fun s => ⟨rfl, rfl⟩⟩
  · unfold CloudCalc.aws_total_cost CloudCalc.aws_compute_category
      CloudCalc.aws_storage_category CloudCalc.aws_database_category
      CloudCalc.aws_logging_category CloudCalc.aws_additional_category
    ring
  · unfold CloudCalc.azure_total_cost CloudCalc.azure_compute_category
      CloudCalc.azure_storage_category CloudCalc.azure_database_category
      CloudCalc.azure_logging_category CloudCalc.azure_additional_category
    ring

/-- C3: the function-based script's AWS database cost is a three-tier
step function of user count switching exactly at 100 and 1000 (65 for
users ≤ 100, 156 for 100 < users ≤ 1000, 625 for users > 1000), and the
class-based script's request-unit-priced Cosmos DB cost is provisioned
RU/s times the per-RU unit price times 730 hours per month. -/
theorem claim_C3_database_step :
    (∀ s : Accurate.Scenario,
      (s.users ≤ 100 → Accurate.aws_database s = 65) ∧
      (100 < s.users → s.users ≤ 1000 → Accurate.aws_database s = 156) ∧
      (1000 < s.users → Accurate.aws_database s = 625)) ∧
    (∀ s : CloudCalc.Scenario,
      CloudCalc.azure_cosmos_db_cost s =
        s.cosmos_ru_per_second *
          CloudCalc.azure_pricing_cosmos_db_ru_per_second * 730) := by
  refine ⟨fun s => ⟨fun h => ?_, fun h1 h2 => ?_, fun h => ?_⟩, fun s => rfl⟩
  · unfold Accurate.aws_database
    rw [if_pos h]
  · unfold Accurate.aws_database
    rw [if_neg (by linarith), if_pos h2]
  · unfold Accurate.aws_database
    rw [if_neg (by linarith), if_neg (by linarith)]

/-- C3, witness: tier boundaries checked at 100, 101, 1000 and 1001
users, plus the RU formula on the low-usage scenario. -/
theorem claim_C3_database_step_witness :
    Accurate.aws_database ⟨0, 0, 0, 0, 100⟩ = 65 ∧
    Accurate.aws_database ⟨0, 0, 0, 0, 101⟩ = 156 ∧
    Accurate.aws_database ⟨0, 0, 0, 0, 1000⟩ = 156 ∧
    Accurate.aws_database ⟨0, 0, 0, 0, 1001⟩ = 625 ∧
    CloudCalc.azure_cosmos_db_cost CloudCalc.scenario_low =
      CloudCalc.scenario_low.cosmos_ru_per_second *
        CloudCalc.azure_pricing_cosmos_db_ru_per_second * 730 :=
  ⟨(claim_C3_database_step.1 _).1 (by norm_num),
   (claim_C3_database_step.1 _).2.1 (by norm_num) (by norm_num),
   (claim_C3_database_step.1 _).2.1 (by norm_num) (by norm_num),
   (claim_C3_database_step.1 _).2.2 (by norm_num),
   claim_C3_database_step.2 _⟩

/-- C4: computing a provider Cost Breakdown fails (returns `none`,
modelling the division-by-zero in the logging-percentage line) exactly
when the grand total is zero, and for every scenario with strictly
positive grand total both provider cost functions return a well-formed
result. -/
theorem claim_C4_partiality (s : CloudCalc.Scenario) :
    (CloudCalc.calculate_aws_costs s = none ↔
      CloudCalc.aws_total_cost s = 0) ∧
    (CloudCalc.calculate_azure_costs s = none ↔
      CloudCalc.azure_total_cost s = 0) ∧
    (0 < CloudCalc.aws_total_cost s →
      ∃ r, CloudCalc.calculate_aws_costs s = some r) ∧
    (0 < CloudCalc.azure_total_cost s →
      ∃ r, CloudCalc.calculate_azure_costs s = some r) := by
  refine ⟨?_, ?_,
    fun h => ⟨_, CloudCalc.calculate_aws_costs_eq_some.mpr ⟨ne_of_gt h, rfl⟩⟩,
    fun h => ⟨_, CloudCalc.calculate_azure_costs_eq_some.mpr ⟨ne_of_gt h, rfl⟩⟩⟩
  · unfold CloudCalc.calculate_aws_costs
    split_ifs with h <;> simp [h]
  · unfold CloudCalc.calculate_azure_costs
    split_ifs with h <;> simp [h]

/-- C4, witness: the low-usage scenario has positive totals and both
provider computations return a result. -/
theorem claim_C4_partiality_witness :
    (0 : ℚ) < CloudCalc.aws_total_cost CloudCalc.scenario_low ∧
    (∃ r, CloudCalc.calculate_aws_costs CloudCalc.scenario_low = some r) ∧
    (∃ r, CloudCalc.calculate_azure_costs CloudCalc.scenario_low = some r) :=
  ⟨by norm_num [CloudCalc.aws_total_cost_scenario_low],
   (claim_C4_partiality CloudCalc.scenario_low).2.2.1
     (by norm_num [CloudCalc.aws_total_cost_scenario_low]),
   (claim_C4_partiality CloudCalc.scenario_low).2.2.2
     (by norm_num [CloudCalc.azure_total_cost_scenario_low])⟩

/-- C5: in both scripts the comparison's absolute savings is the AWS
total minus the Azure total, the savings percentage is that difference
divided by the AWS total times 100, and the sign of both follows which
total is larger: strictly positive when AWS is larger, strictly negative
when Azure is larger. -/
theorem claim_C5_savings :
    (∀ (s : CloudCalc.Scenario) (r : CloudCalc.ComparisonResult),
      s.Nonneg → CloudCalc.compare_scenario s = some r →
      r.savings_azure =
          CloudCalc.aws_total_cost s - CloudCalc.azure_total_cost s ∧
        r.savings_percentage =
          (CloudCalc.aws_total_cost s - CloudCalc.azure_total_cost s) /
            CloudCalc.aws_total_cost s * 100 ∧
        (CloudCalc.azure_total_cost s < CloudCalc.aws_total_cost s →
          0 < r.savings_azure ∧ 0 < r.savings_percentage) ∧
        (CloudCalc.aws_total_cost s < CloudCalc.azure_total_cost s →
          r.savings_azure < 0 ∧ r.savings_percentage < 0)) ∧
    (∀ t : Accurate.Scenario, t.Nonneg →
      Accurate.savings t = Accurate.aws_total t - Accurate.azure_total t ∧
        Accurate.savings_pct t =
          (Accurate.aws_total t - Accurate.azure_total t) /
            Accurate.aws_total t * 100 ∧
        (Accurate.azure_total t < Accurate.aws_total t →
          0 < Accurate.savings t ∧ 0 < Accurate.savings_pct t) ∧
        (Accurate.aws_total t < Accurate.azure_total t →
          Accurate.savings t < 0 ∧ Accurate.savings_pct t < 0)) := by
  constructor
  · intro s r hnn hr
    obtain ⟨hA, hZ, rfl⟩ := CloudCalc.compare_scenario_eq_some.mp hr
    have hApos : 0 < CloudCalc.aws_total_cost s :=
      lt_of_le_of_ne (CloudCalc.aws_total_cost_nonneg hnn) (Ne.symm hA)
    refine ⟨rfl, rfl, fun h => ⟨?_, ?_⟩, fun h => ⟨?_, ?_⟩⟩
    · show 0 < CloudCalc.aws_total_cost s - CloudCalc.azure_total_cost s
      linarith
    · show 0 <
        (CloudCalc.aws_total_cost s - CloudCalc.azure_total_cost s) /
          CloudCalc.aws_total_cost s * 100
      exact mul_pos (div_pos (by linarith) hApos) (by norm_num)
    · show CloudCalc.aws_total_cost s - CloudCalc.azure_total_cost s < 0
      linarith
    · show (CloudCalc.aws_total_cost s - CloudCalc.azure_total_cost s) /
          CloudCalc.aws_total_cost s * 100 < 0
      exact mul_neg_of_neg_of_pos
        (div_neg_of_neg_of_pos (by linarith) hApos) (by norm_num)
  · intro t hnn
    have hApos : 0 < Accurate.aws_total t := Accurate.aws_total_pos hnn
    refine ⟨rfl, rfl, fun h => ⟨?_, ?_⟩, fun h => ⟨?_, ?_⟩⟩
    · show 0 < Accurate.aws_total t - Accurate.azure_total t
      linarith
    · show 0 <
        (Accurate.aws_total t - Accurate.azure_total t) /
          Accurate.aws_total t * 100
      exact mul_pos (div_pos (by linarith) hApos) (by norm_num)
    · show Accurate.aws_total t - Accurate.azure_total t < 0
      linarith
    · show (Accurate.aws_total t - Accurate.azure_total t) /
          Accurate.aws_total t * 100 < 0
      exact mul_neg_of_neg_of_pos
        (div_neg_of_neg_of_pos (by linarith) hApos) (by norm_num)

/-- C5, witness: on the low-usage scenario and on the common input the
Azure total exceeds the AWS total, so both scripts report strictly
negative savings and savings percentage. -/
theorem claim_C5_savings_witness :
    ((-233431 / 40 : ℚ) < 0 ∧ (-4668620 / 1201 : ℚ) < 0) ∧
    (Accurate.savings common_accurate_scenario < 0 ∧
      Accurate.savings_pct common_accurate_scenario < 0) :=
  ⟨(claim_C5_savings.1 CloudCalc.scenario_low _ CloudCalc.scenario_low_nonneg
      CloudCalc.compare_scenario_scenario_low).2.2.2
      (by norm_num [CloudCalc.aws_total_cost_scenario_low,
        CloudCalc.azure_total_cost_scenario_low]),
   (claim_C5_savings.2 common_accurate_scenario
      common_accurate_scenario_nonneg).2.2.2
      (by norm_num [acc_aws_total_common, acc_azure_total_common])⟩

/-- C6: the report's overall average savings percentage is the simple
arithmetic mean of the three per-scenario savings percentages, and it
differs from the weighted recomputation out of the summed totals. -/
theorem claim_C6_average :
    CloudCalc.avg_azure_savings =
      (CloudCalc.savings_percentage_of CloudCalc.scenario_low +
        CloudCalc.savings_percentage_of CloudCalc.scenario_medium +
        CloudCalc.savings_percentage_of CloudCalc.scenario_high) / 3 ∧
    CloudCalc.avg_azure_savings ≠ CloudCalc.weighted_savings_percentage := by
  constructor
  · simp [CloudCalc.avg_azure_savings, CloudCalc.generate_scenarios]
    ring
  · simp only [CloudCalc.avg_azure_savings, CloudCalc.weighted_savings_percentage,
      CloudCalc.generate_scenarios, CloudCalc.savings_percentage_of,
      List.map_cons, List.map_nil, List.sum_cons, List.sum_nil,
      List.length_cons, List.length_nil]
    rw [CloudCalc.aws_total_cost_scenario_low,
      CloudCalc.azure_total_cost_scenario_low,
      CloudCalc.aws_total_cost_scenario_medium,
      CloudCalc.azure_total_cost_scenario_medium,
      CloudCalc.aws_total_cost_scenario_high,
      CloudCalc.azure_total_cost_scenario_high]
    norm_num

/-- C7: for every scenario with non-negative fields on which the
provider computation succeeds, the reported logging percentage lies in
the closed interval from 0 to 100, for both providers. -/
theorem claim_C7_logging_percentage (s : CloudCalc.Scenario)
    (hnn : s.Nonneg) (ra : CloudCalc.AwsResult) (rz : CloudCalc.AzureResult)
    (ha : CloudCalc.calculate_aws_costs s = some ra)
    (hz : CloudCalc.calculate_azure_costs s = some rz) :
    (0 ≤ ra.logging_percentage ∧ ra.logging_percentage ≤ 100) ∧
    (0 ≤ rz.logging_percentage ∧ rz.logging_percentage ≤ 100) := by
  obtain ⟨hA, rfl⟩ := CloudCalc.calculate_aws_costs_eq_some.mp ha
  obtain ⟨hZ, rfl⟩ := CloudCalc.calculate_azure_costs_eq_some.mp hz
  obtain ⟨p1, p2, p3, p4, p5, p6, p7⟩ := CloudCalc.aws_parts_nonneg hnn
  obtain ⟨q1, q2, q3, q4, q5, q6, q7⟩ := CloudCalc.azure_parts_nonneg hnn
  have hApos : 0 < CloudCalc.aws_total_cost s :=
    lt_of_le_of_ne (CloudCalc.aws_total_cost_nonneg hnn) (Ne.symm hA)
  have hZpos : 0 < CloudCalc.azure_total_cost s :=
    lt_of_le_of_ne (CloudCalc.azure_total_cost_nonneg hnn) (Ne.symm hZ)
  have hLA : CloudCalc.aws_cloudwatch_total s + CloudCalc.aws_opensearch_cost s ≤
      CloudCalc.aws_total_cost s := by
    unfold CloudCalc.aws_total_cost
    linarith
  have hLZ : CloudCalc.azure_monitor_total s + CloudCalc.azure_search_cost s ≤
      CloudCalc.azure_total_cost s := by
    unfold CloudCalc.azure_total_cost
    linarith
  refine ⟨⟨?_, ?_⟩, ⟨?_, ?_⟩⟩
  · exact mul_nonneg (div_nonneg (by linarith) hApos.le) (by norm_num)
  · show (CloudCalc.aws_cloudwatch_total s + CloudCalc.aws_opensearch_cost s) /
        CloudCalc.aws_total_cost s * 100 ≤ 100
    have hd : (CloudCalc.aws_cloudwatch_total s +
        CloudCalc.aws_opensearch_cost s) / CloudCalc.aws_total_cost s ≤ 1 :=
      (div_le_one hApos).mpr hLA
    linarith
  · exact mul_nonneg (div_nonneg (by linarith) hZpos.le) (by norm_num)
  · show (CloudCalc.azure_monitor_total s + CloudCalc.azure_search_cost s) /
        CloudCalc.azure_total_cost s * 100 ≤ 100
    have hd : (CloudCalc.azure_monitor_total s +
        CloudCalc.azure_search_cost s) / CloudCalc.azure_total_cost s ≤ 1 :=
      (div_le_one hZpos).mpr hLZ
    linarith

/-- C7, witness: the low-usage scenario's logging percentages, 32.84
for AWS and 0.48 for Azure, are both inside the interval. -/
theorem claim_C7_logging_percentage_witness :
    (0 ≤ (39440 / 1201 : ℚ) ∧ (39440 / 1201 : ℚ) ≤ 100) ∧
    (0 ≤ (28900 / 59859 : ℚ) ∧ (28900 / 59859 : ℚ) ≤ 100) :=
  claim_C7_logging_percentage CloudCalc.scenario_low
    CloudCalc.scenario_low_nonneg _ _
    CloudCalc.calculate_aws_costs_scenario_low
    CloudCalc.calculate_azure_costs_scenario_low

/-- C8: on the low-usage scenario (50000 requests, 2 s, 0.5 GB, 50 GB
storage, 100 GB transfer, 10 GB logs, 100-user tier prices) the AWS
breakdown reproduces the documented figures: both Lambda free-tier
clamps are 0 so the compute category is exactly the per-request
API-Gateway fee, the database cost is 65 and the search add-on is 28,
each within the 0.01 tolerance. -/
theorem claim_C8_low_usage_figures :
    CloudCalc.aws_lambda_requests_cost CloudCalc.scenario_low = 0 ∧
    CloudCalc.aws_lambda_execution_cost CloudCalc.scenario_low = 0 ∧
    CloudCalc.aws_compute_category CloudCalc.scenario_low =
      CloudCalc.aws_api_gateway_cost CloudCalc.scenario_low ∧
    |CloudCalc.aws_compute_category CloudCalc.scenario_low - 0.175| ≤ 0.01 ∧
    |CloudCalc.aws_database_cost CloudCalc.scenario_low - 65| ≤ 0.01 ∧
    |CloudCalc.aws_opensearch_cost CloudCalc.scenario_low - 28| ≤ 0.01 := by
  norm_num [CloudCalc.aws_compute_category, CloudCalc.aws_lambda_total,
    CloudCalc.aws_lambda_requests_cost, CloudCalc.aws_lambda_execution_cost,
    CloudCalc.aws_gb_seconds, CloudCalc.aws_api_gateway_cost,
    CloudCalc.aws_database_cost, CloudCalc.aws_opensearch_cost,
    CloudCalc.scenario_low, CloudCalc.aws_pricing_lambda_requests,
    CloudCalc.aws_pricing_lambda_gb_seconds,
    CloudCalc.aws_pricing_api_gateway_requests, max_def, abs_le]

/-- C9, counterexample.  The claim says the two scripts disagree on some
unit prices, naming the S3 storage price and the transfer price.  They
do not: both charge 0.023 per GB stored and 0.085 per GB transferred on
AWS, and 0.18 per GB stored and 0.15 per GB transferred on Azure (the
function-based script's per-GB charges, exhibited as marginal storage
costs at unit volume, equal the class-based script's pricing-table
entries). -/
theorem claim_C9_counterexample :
    CloudCalc.aws_pricing_s3_storage = 0.023 ∧
    Accurate.aws_storage ⟨0, 0, 1, 0, 0⟩ -
      Accurate.aws_storage ⟨0, 0, 0, 0, 0⟩ = 0.023 ∧
    CloudCalc.aws_pricing_cloudfront_transfer = 0.085 ∧
    Accurate.aws_storage ⟨0, 1, 0, 0, 0⟩ -
      Accurate.aws_storage ⟨0, 0, 0, 0, 0⟩ = 0.085 ∧
    CloudCalc.azure_pricing_static_web_apps_storage = 0.18 ∧
    Accurate.azure_storage ⟨0, 0, 1, 0, 0⟩ -
      Accurate.azure_storage ⟨0, 0, 0, 0, 0⟩ = 0.18 ∧
    CloudCalc.azure_pricing_static_web_apps_bandwidth = 0.15 ∧
    Accurate.azure_storage ⟨0, 1, 0, 0, 0⟩ -
      Accurate.azure_storage ⟨0, 0, 0, 0, 0⟩ = 0.15 := by
  norm_num [CloudCalc.aws_pricing_s3_storage,
    CloudCalc.aws_pricing_cloudfront_transfer,
    CloudCalc.azure_pricing_static_web_apps_storage,
    CloudCalc.azure_pricing_static_web_apps_bandwidth,
    Accurate.aws_storage, Accurate.azure_storage]

/-- C9, amended.  The two scripts are indeed not extensionally equal:
on a common scenario input (same requests, storage, transfer and log
volumes, with the tier prices the function-based script would itself
select for 100 users) both the AWS and the Azure grand totals differ —
but the disagreement lies in which fees and components are included
(the class-based script's AWS additional fees default to 26 dollars
against the function-based script's flat 20, and its Azure additional
fees to 36 against 15), not in the shared per-GB unit prices. -/
theorem claim_C9_not_extensionally_equal :
    common_cloud_scenario.requests_per_month =
      common_accurate_scenario.monthly_requests ∧
    common_cloud_scenario.storage_gb = common_accurate_scenario.storage_gb ∧
    common_cloud_scenario.cdn_transfer_gb =
      common_accurate_scenario.data_transfer_gb ∧
    common_cloud_scenario.log_volume_gb =
      common_accurate_scenario.log_volume_gb ∧
    CloudCalc.aws_total_cost common_cloud_scenario ≠
      Accurate.aws_total common_accurate_scenario ∧
    CloudCalc.azure_total_cost common_cloud_scenario ≠
      Accurate.azure_total common_accurate_scenario ∧
    CloudCalc.aws_additional_sum common_cloud_scenario = 26 ∧
    Accurate.aws_additional = 20 ∧
    CloudCalc.azure_additional_sum common_cloud_scenario = 36 ∧
    Accurate.azure_additional = 15 := by
  refine ⟨by norm_num [common_cloud_scenario, common_accurate_scenario],
    by norm_num [common_cloud_scenario, common_accurate_scenario],
    by norm_num [common_cloud_scenario, common_accurate_scenario],
    by norm_num [common_cloud_scenario, common_accurate_scenario],
    ?_, ?_, ?_, rfl, ?_, rfl⟩
  · rw [cloud_aws_total_common, acc_aws_total_common]
    norm_num
  · rw [cloud_azure_total_common, acc_azure_total_common]
    norm_num
  · norm_num [CloudCalc.aws_additional_sum, common_cloud_scenario,
      CloudCalc.Scenario.cognito_costD, CloudCalc.Scenario.notification_costD,
      CloudCalc.Scenario.waf_costD, CloudCalc.Scenario.aws_data_transfer_costD]
  · norm_num [CloudCalc.azure_additional_sum, common_cloud_scenario,
      CloudCalc.Scenario.ad_b2c_costD, CloudCalc.Scenario.logic_apps_costD,
      CloudCalc.Scenario.app_gateway_costD, CloudCalc.Scenario.key_vault_costD,
      CloudCalc.Scenario.azure_data_transfer_costD]

/-- C10: raising any scenario fields (pointwise, optional fees compared
after resolving their defaults) while starting from non-negative values
never decreases any of the five category sub-totals or the grand total,
for either provider. -/
theorem claim_C10_monotone (s t : CloudCalc.Scenario)
    (hnn : s.Nonneg) (hle : s.Le t) :
    CloudCalc.aws_compute_category s ≤ CloudCalc.aws_compute_category t ∧
    CloudCalc.aws_storage_category s ≤ CloudCalc.aws_storage_category t ∧
    CloudCalc.aws_database_category s ≤ CloudCalc.aws_database_category t ∧
    CloudCalc.aws_logging_category s ≤ CloudCalc.aws_logging_category t ∧
    CloudCalc.aws_additional_category s ≤ CloudCalc.aws_additional_category t ∧
    CloudCalc.aws_total_cost s ≤ CloudCalc.aws_total_cost t ∧
    CloudCalc.azure_compute_category s ≤ CloudCalc.azure_compute_category t ∧
    CloudCalc.azure_storage_category s ≤ CloudCalc.azure_storage_category t ∧
    CloudCalc.azure_database_category s ≤ CloudCalc.azure_database_category t ∧
    CloudCalc.azure_logging_category s ≤ CloudCalc.azure_logging_category t ∧
    CloudCalc.azure_additional_category s ≤
      CloudCalc.azure_additional_category t ∧
    CloudCalc.azure_total_cost s ≤ CloudCalc.azure_total_cost t := by
  obtain ⟨h1, h2, h3, h4, h5, h6, h7, h8, h9, h10, h11, h12, h13, h14, h15,
    h16, h17, h18, h19, h20, h21, h22⟩ := hnn
  obtain ⟨l1, l2, l3, l4, l5, l6, l7, l8, l9, l10, l11, l12, l13, l14, l15,
    l16, l17, l18, l19, l20, l21, l22⟩ := hle
  have hgb : CloudCalc.aws_gb_seconds s ≤ CloudCalc.aws_gb_seconds t := by
    unfold CloudCalc.aws_gb_seconds
    have hrd : s.requests_per_month * s.avg_duration_seconds ≤
        t.requests_per_month * t.avg_duration_seconds :=
      mul_le_mul l1 l2 h2 (h1.trans l1)
    exact mul_le_mul hrd l3 h3 (mul_nonneg (h1.trans l1) (h2.trans l2))
  have hgbz : CloudCalc.azure_gb_seconds s ≤ CloudCalc.azure_gb_seconds t := hgb
  have hlreq : CloudCalc.aws_lambda_requests_cost s ≤
      CloudCalc.aws_lambda_requests_cost t :=
    clamp_mono (by norm_num [CloudCalc.aws_pricing_lambda_requests]) l1
  have hlexec : CloudCalc.aws_lambda_execution_cost s ≤
      CloudCalc.aws_lambda_execution_cost t :=
    clamp_mono (by norm_num [CloudCalc.aws_pricing_lambda_gb_seconds]) hgb
  have hlam : CloudCalc.aws_lambda_total s ≤ CloudCalc.aws_lambda_total t :=
    add_le_add hlreq hlexec
  have hgw : CloudCalc.aws_api_gateway_cost s ≤
      CloudCalc.aws_api_gateway_cost t :=
    mul_le_mul_of_nonneg_right l1
      (by norm_num [CloudCalc.aws_pricing_api_gateway_requests])
  have hs3 : CloudCalc.aws_s3_cloudfront_total s ≤
      CloudCalc.aws_s3_cloudfront_total t :=
    add_le_add
      (mul_le_mul_of_nonneg_right l4
        (by norm_num [CloudCalc.aws_pricing_s3_storage]))
      (mul_le_mul_of_nonneg_right l5
        (by norm_num [CloudCalc.aws_pricing_cloudfront_transfer]))
  have hcw : CloudCalc.aws_cloudwatch_total s ≤
      CloudCalc.aws_cloudwatch_total t :=
    add_le_add (add_le_add (add_le_add
      (mul_le_mul_of_nonneg_right l6
        (by norm_num [CloudCalc.aws_pricing_cloudwatch_ingestion]))
      (mul_le_mul_of_nonneg_right l6
        (by norm_num [CloudCalc.aws_pricing_cloudwatch_storage])))
      (mul_le_mul_of_nonneg_right l7
        (by norm_num [CloudCalc.aws_pricing_cloudwatch_metrics])))
      (mul_le_mul_of_nonneg_right l8
        (by norm_num [CloudCalc.aws_pricing_cloudwatch_alarms]))
  have hadd : CloudCalc.aws_additional_sum s ≤
      CloudCalc.aws_additional_sum t :=
    add_le_add (add_le_add (add_le_add l14 l15) l16) l17
  have hzreq : CloudCalc.azure_functions_requests_cost s ≤
      CloudCalc.azure_functions_requests_cost t :=
    clamp_mono (by norm_num [CloudCalc.azure_pricing_functions_requests]) l1
  have hzexec : CloudCalc.azure_functions_execution_cost s ≤
      CloudCalc.azure_functions_execution_cost t :=
    clamp_mono (by norm_num [CloudCalc.azure_pricing_functions_gb_seconds]) hgbz
  have hzfun : CloudCalc.azure_functions_total s ≤
      CloudCalc.azure_functions_total t :=
    add_le_add hzreq hzexec
  have hswa : CloudCalc.azure_static_web_apps_total s ≤
      CloudCalc.azure_static_web_apps_total t :=
    add_le_add (add_le_add le_rfl
      (mul_le_mul_of_nonneg_right l4
        (by norm_num [CloudCalc.azure_pricing_static_web_apps_storage])))
      (mul_le_mul_of_nonneg_right l5
        (by norm_num [CloudCalc.azure_pricing_static_web_apps_bandwidth]))
  have hcos : CloudCalc.azure_cosmos_db_cost s ≤
      CloudCalc.azure_cosmos_db_cost t :=
    mul_le_mul_of_nonneg_right
      (mul_le_mul_of_nonneg_right l12
        (by norm_num [CloudCalc.azure_pricing_cosmos_db_ru_per_second]))
      (by norm_num)
  have hmon : CloudCalc.azure_monitor_total s ≤
      CloudCalc.azure_monitor_total t :=
    add_le_add
      (mul_le_mul_of_nonneg_right l6
        (by norm_num [CloudCalc.azure_pricing_monitor_ingestion]))
      (mul_le_mul_of_nonneg_right l6
        (by norm_num [CloudCalc.azure_pricing_monitor_retention_basic]))
  have hzadd : CloudCalc.azure_additional_sum s ≤
      CloudCalc.azure_additional_sum t :=
    add_le_add (add_le_add (add_le_add (add_le_add l18 l19) l20) l21) l22
  refine ⟨add_le_add hlam hgw, hs3, l9, add_le_add hcw l10, hadd, ?_,
    add_le_add hzfun l11, hswa, hcos, add_le_add hmon l13, hzadd, ?_⟩
  · unfold CloudCalc.aws_total_cost CloudCalc.aws_database_cost
      CloudCalc.aws_opensearch_cost
    linarith
  · unfold CloudCalc.azure_total_cost CloudCalc.azure_apim_cost
      CloudCalc.azure_search_cost
    linarith

/-- C10, witness: the low-usage scenario is pointwise below the
medium-usage scenario, and both grand totals indeed do not decrease. -/
theorem claim_C10_monotone_witness :
    CloudCalc.aws_total_cost CloudCalc.scenario_low ≤
      CloudCalc.aws_total_cost CloudCalc.scenario_medium ∧
    CloudCalc.azure_total_cost CloudCalc.scenario_low ≤
      CloudCalc.azure_total_cost CloudCalc.scenario_medium := by
  have hle : CloudCalc.scenario_low.Le CloudCalc.scenario_medium := by
    norm_num [CloudCalc.Scenario.Le, CloudCalc.scenario_low,
      CloudCalc.scenario_medium, CloudCalc.Scenario.cognito_costD,
      CloudCalc.Scenario.notification_costD, CloudCalc.Scenario.waf_costD,
      CloudCalc.Scenario.aws_data_transfer_costD,
      CloudCalc.Scenario.ad_b2c_costD, CloudCalc.Scenario.logic_apps_costD,
      CloudCalc.Scenario.app_gateway_costD, CloudCalc.Scenario.key_vault_costD,
      CloudCalc.Scenario.azure_data_transfer_costD]
  have h := claim_C10_monotone CloudCalc.scenario_low CloudCalc.scenario_medium
    CloudCalc.scenario_low_nonneg hle
  exact ⟨h.2.2.2.2.2.1, h.2.2.2.2.2.2.2.2.2.2.2⟩

